import Mathlib

/-!
Verification of the prisma-mysql-adapter core: a shallow embedding of
`src/conversion.ts` (wire-type classification and the field-decoding policy)
and `src/mysql.ts` (result marshalling, error translation, transaction
release), with theorems settling the specification claims.
-/

namespace PrismaMySql

/-- Normalized column types (the `ColumnTypeEnum` values the adapter emits). -/
inductive ColumnType where
  | Numeric
  | Float
  | Double
  | Int32
  | Int64
  | DateTime
  | Time
  | Date
  | Text
  | Bytes
  | Boolean
  | Json
  | Enum
deriving DecidableEq, Repr

/-- Per-column wire metadata: the mysql2 `FieldPacket` attributes the adapter
reads (`columnType`, `flags`, `characterSet`, `columnLength`), plus attributes
it carries but the classifier must not depend on (`name`, `table`). -/
structure FieldPacket where
  name : String
  table : String
  columnType : Nat
  flags : Nat
  characterSet : Nat
  columnLength : Nat
deriving DecidableEq, Repr

/-- The `MySqlCodes` record from conversion.ts: wire type code to name. -/
def MySqlCodesList : List (Nat × String) :=
  [(0x00, "DECIMAL"), (0x01, "TINY"), (0x02, "SHORT"), (0x03, "LONG"),
   (0x04, "FLOAT"), (0x05, "DOUBLE"), (0x06, "NULL"), (0x07, "TIMESTAMP"),
   (0x08, "LONGLONG"), (0x09, "INT24"), (0x0a, "DATE"), (0x0b, "TIME"),
   (0x0c, "DATETIME"), (0x0d, "YEAR"), (0x0e, "NEWDATE"), (0x0f, "VARCHAR"),
   (0x10, "BIT"), (0xf5, "JSON"), (0xf6, "NEWDECIMAL"), (0xf7, "ENUM"),
   (0xf8, "SET"), (0xf9, "TINY_BLOB"), (0xfa, "MEDIUM_BLOB"),
   (0xfb, "LONG_BLOB"), (0xfc, "BLOB"), (0xfd, "VAR_STRING"),
   (0xfe, "STRING"), (0xff, "GEOMETRY")]

/-- `MySqlCodes[code]` lookup (undefined becomes `none`). -/
def MySqlCodes (c : Nat) : Option String :=
  MySqlCodesList.lookup c

/-- The set of wire type codes named in the adapter's tables (the 28 keys of
`MySqlCodes`, which coincide with the values of `MySqlTypes`). -/
def supportedCodes : List Nat :=
  MySqlCodesList.map Prod.fst

namespace MySqlTypes

def DECIMAL : Nat := 0x00
def TINY : Nat := 0x01
def SHORT : Nat := 0x02
def LONG : Nat := 0x03
def FLOAT : Nat := 0x04
def DOUBLE : Nat := 0x05
def NULL : Nat := 0x06
def TIMESTAMP : Nat := 0x07
def LONGLONG : Nat := 0x08
def INT24 : Nat := 0x09
def DATE : Nat := 0x0a
def TIME : Nat := 0x0b
def DATETIME : Nat := 0x0c
def YEAR : Nat := 0x0d
def NEWDATE : Nat := 0x0e
def VARCHAR : Nat := 0x0f
def BIT : Nat := 0x10
def JSON : Nat := 0xf5
def NEWDECIMAL : Nat := 0xf6
def ENUM : Nat := 0xf7
def SET : Nat := 0xf8
def TINY_BLOB : Nat := 0xf9
def MEDIUM_BLOB : Nat := 0xfa
def LONG_BLOB : Nat := 0xfb
def BLOB : Nat := 0xfc
def VAR_STRING : Nat := 0xfd
def STRING : Nat := 0xfe
def GEOMETRY : Nat := 0xff

end MySqlTypes

namespace MySqlFlags

def NOT_NULL : Nat := 1
def PRI_KEY : Nat := 2
def UNIQUE_KEY : Nat := 4
def MULTIPLE_KEY : Nat := 8
def BLOB : Nat := 16
def UNSIGNED : Nat := 32
def ZEROFILL : Nat := 64
def BINARY : Nat := 128
def ENUM : Nat := 256
def AUTO_INCREMENT : Nat := 512
def TIMESTAMP : Nat := 1024
def SET : Nat := 2048
def NO_DEFAULT_VALUE : Nat := 4096
def ON_UPDATE_NOW : Nat := 8192
def NUM : Nat := 32768

end MySqlFlags

attribute [simp] MySqlTypes.DECIMAL MySqlTypes.TINY MySqlTypes.SHORT MySqlTypes.LONG
  MySqlTypes.FLOAT MySqlTypes.DOUBLE MySqlTypes.NULL MySqlTypes.TIMESTAMP
  MySqlTypes.LONGLONG MySqlTypes.INT24 MySqlTypes.DATE MySqlTypes.TIME
  MySqlTypes.DATETIME MySqlTypes.YEAR MySqlTypes.NEWDATE MySqlTypes.VARCHAR
  MySqlTypes.BIT MySqlTypes.JSON MySqlTypes.NEWDECIMAL MySqlTypes.ENUM
  MySqlTypes.SET MySqlTypes.TINY_BLOB MySqlTypes.MEDIUM_BLOB MySqlTypes.LONG_BLOB
  MySqlTypes.BLOB MySqlTypes.VAR_STRING MySqlTypes.STRING MySqlTypes.GEOMETRY
  MySqlFlags.UNSIGNED MySqlFlags.ENUM

/-- `hasFlag` from conversion.ts: a bitwise AND, used in boolean position
(truthy iff nonzero). -/
def hasFlag (flags target : Nat) : Nat :=
  flags &&& target

def isReal (f : FieldPacket) : Bool :=
  f.columnType == MySqlTypes.DECIMAL || f.columnType == MySqlTypes.NEWDECIMAL

def isFloat (f : FieldPacket) : Bool :=
  f.columnType == MySqlTypes.FLOAT

def isDouble (f : FieldPacket) : Bool :=
  f.columnType == MySqlTypes.DOUBLE

def isInt32 (f : FieldPacket) : Bool :=
  f.columnType == MySqlTypes.TINY ||
  f.columnType == MySqlTypes.SHORT ||
  f.columnType == MySqlTypes.YEAR ||
  (f.columnType == MySqlTypes.LONG && hasFlag f.flags MySqlFlags.UNSIGNED == 0) ||
  (f.columnType == MySqlTypes.INT24 && hasFlag f.flags MySqlFlags.UNSIGNED == 0)

def isInt64 (f : FieldPacket) : Bool :=
  f.columnType == MySqlTypes.LONGLONG ||
  (f.columnType == MySqlTypes.LONG && hasFlag f.flags MySqlFlags.UNSIGNED != 0) ||
  (f.columnType == MySqlTypes.INT24 && hasFlag f.flags MySqlFlags.UNSIGNED != 0)

def isDateTime (f : FieldPacket) : Bool :=
  f.columnType == MySqlTypes.TIMESTAMP || f.columnType == MySqlTypes.DATETIME

def isTime (f : FieldPacket) : Bool :=
  f.columnType == MySqlTypes.TIME

def isDate (f : FieldPacket) : Bool :=
  f.columnType == MySqlTypes.DATE || f.columnType == MySqlTypes.NEWDATE

def isText (f : FieldPacket) : Bool :=
  f.columnType == MySqlTypes.VARCHAR ||
  f.columnType == MySqlTypes.VAR_STRING ||
  f.columnType == MySqlTypes.STRING ||
  (f.columnType == MySqlTypes.TINY_BLOB && f.characterSet != 63) ||
  (f.columnType == MySqlTypes.MEDIUM_BLOB && f.characterSet != 63) ||
  (f.columnType == MySqlTypes.LONG_BLOB && f.characterSet != 63) ||
  (f.columnType == MySqlTypes.BLOB && f.characterSet != 63)

/-- `isBytes`: the BIT clause is `field.columnLength && field.columnLength > 1`,
i.e. a truthiness test on the length followed by the comparison. -/
def isBytes (f : FieldPacket) : Bool :=
  (f.columnType == MySqlTypes.TINY_BLOB && f.characterSet == 63) ||
  (f.columnType == MySqlTypes.MEDIUM_BLOB && f.characterSet == 63) ||
  (f.columnType == MySqlTypes.LONG_BLOB && f.characterSet == 63) ||
  (f.columnType == MySqlTypes.BLOB && f.characterSet == 63) ||
  (f.columnType == MySqlTypes.BIT && f.columnLength != 0 && decide (1 < f.columnLength))

def isBool (f : FieldPacket) : Bool :=
  f.columnType == MySqlTypes.BIT && f.columnLength == 1

def isJson (f : FieldPacket) : Bool :=
  f.columnType == MySqlTypes.JSON

def isEnum (f : FieldPacket) : Bool :=
  f.columnType == MySqlTypes.ENUM || hasFlag f.flags MySqlFlags.ENUM != 0

def isNull (f : FieldPacket) : Bool :=
  f.columnType == MySqlTypes.NULL

/-- The name the `UnsupportedNativeDataType` constructor computes:
`(field.columnType && MySqlCodes[field.columnType]) || "Unknown"`
(a type code of 0 is falsy; every name in the table is a non-empty string,
so the lookup result is falsy exactly when the key is absent). -/
def unsupportedTypeName (f : FieldPacket) : String :=
  if f.columnType ≠ 0 then
    match MySqlCodes f.columnType with
    | some n => n
    | none => "Unknown"
  else "Unknown"

/-- `fieldToColumnType` from conversion.ts; the thrown
`UnsupportedNativeDataType` becomes `Except.error` carrying its `type` name. -/
def fieldToColumnType (f : FieldPacket) : Except String ColumnType :=
  if isReal f then .ok .Numeric
  else if isFloat f then .ok .Float
  else if isDouble f then .ok .Double
  else if isInt32 f then .ok .Int32
  else if isInt64 f then .ok .Int64
  else if isDateTime f then .ok .DateTime
  else if isTime f then .ok .Time
  else if isDate f then .ok .Date
  else if isText f then .ok .Text
  else if isBytes f then .ok .Bytes
  else if isBool f then .ok .Boolean
  else if isJson f then .ok .Json
  else if isEnum f then .ok .Enum
  else if isNull f then .ok .Int32
  else .error (unsupportedTypeName f)

/-! ### Marshalling and error translation (mysql.ts) -/

/-- A row as returned in array mode: values in column order. -/
abbrev Row := List String

/-- The parts of a mysql2 `ResultSetHeader` the adapter reads. -/
structure ResultSetHeader where
  affectedRows : Nat
  insertId : Nat
deriving DecidableEq, Repr

/-- The `data` part of a client result: either an array of rows (so
`Array.isArray(data)` holds and no `insertId` property exists) or a
`ResultSetHeader` (not an array, exposing `insertId`). -/
inductive QueryData where
  | rowsData (rows : List Row)
  | headerData (h : ResultSetHeader)
deriving DecidableEq, Repr

/-- A query as passed to queryRaw / executeRaw. -/
structure Query where
  sql : String
  args : List String
deriving DecidableEq, Repr

/-- The part of a field the typeCast callback reads: its wire type name and
its original textual representation (`field.string()`). -/
structure CastField where
  type : String
  stringRep : String

/-- A decoded value: either the preserved wire text or whatever the client's
default decoder produced. -/
inductive CastValue where
  | text (s : String)
  | native (s : String)
deriving DecidableEq, Repr

/-- The typeCast field-decoding policy from conversion.ts; `next` is the
client's default decoder. -/
def typeCast (field : CastField) (next : Unit → CastValue) : CastValue :=
  if field.type == "TIMESTAMP" then .text field.stringRep
  else if field.type == "DATETIME" then .text field.stringRep
  else if field.type == "DATE" then .text field.stringRep
  else if field.type == "LONGLONG" then .text field.stringRep
  else next ()

/-- The mysql2 query options the adapter sets: missing `rowsAsArray` means
`false`, missing `typeCast` means the client's default decoding. -/
structure QueryOptions where
  sql : String
  values : List String
  rowsAsArray : Bool
  typeCast : Option (CastField → (Unit → CastValue) → CastValue)

/-- A failure raised by the client (`MySqlError`): `code` is optional and is
tested for truthiness, so an absent or zero code is unrecognized. -/
structure RaisedError where
  code : Option Nat
  message : String
  state : String
deriving DecidableEq, Repr

/-- The translated driver-error result value, with its literal `kind` tag. -/
structure DriverError where
  kind : String
  code : Nat
  message : String
  state : String
deriving DecidableEq, Repr

/-- The unsupported-data-type result value, with its literal `kind` tag. -/
structure UnsupportedError where
  kind : String
  type : String
deriving DecidableEq, Repr

/-- The typed errors an adapter operation can return as a value. -/
inductive AdapterError where
  | mysqlErr (e : DriverError)
  | unsupported (e : UnsupportedError)
deriving DecidableEq, Repr

/-- Outcome of an adapter operation: a success value, a typed error result,
or a re-raised (propagated) failure. -/
inductive Outcome (α : Type) where
  | ok (v : α)
  | err (e : AdapterError)
  | raised (e : RaisedError)
deriving DecidableEq, Repr

/-- The performIO method of MySqlQueryable: the client's response is either
data-with-fields or a raised failure; a failure with a truthy `code` is
translated to a `kind: "Mysql"` error value, any other failure is re-raised
unchanged. -/
def performIo {α : Type} (res : Except RaisedError (α × List FieldPacket)) :
    Outcome (α × List FieldPacket) :=
  match res with
  | .ok v => .ok v
  | .error e =>
    match e.code with
    | some c => if c != 0 then .err (.mysqlErr ⟨"Mysql", c, e.message, e.state⟩) else .raised e
    | none => .raised e

/-- `fields.map(fieldToColumnType)` inside try/catch: the first throwing
column aborts the whole map. -/
def mapColumnTypes : List FieldPacket → Except String (List ColumnType)
  | [] => .ok []
  | f :: fs =>
    match fieldToColumnType f with
    | .error t => .error t
    | .ok c =>
      match mapColumnTypes fs with
      | .error t => .error t
      | .ok cs => .ok (c :: cs)

/-- The result envelope of queryRaw. -/
structure ResultSet where
  columnNames : List String
  columnTypes : List ColumnType
  rows : List Row
  lastInsertId : Option String
deriving DecidableEq, Repr

/-- The options queryRaw passes to the client: array mode and the typeCast
policy installed. -/
def queryRawOptions (q : Query) : QueryOptions :=
  ⟨q.sql, q.args, true, some typeCast⟩

/-- The options executeRaw passes to the client: only sql and values. -/
def executeRawOptions (q : Query) : QueryOptions :=
  ⟨q.sql, q.args, false, none⟩

/-- queryRaw from mysql.ts; `client` stands for `this.client.query`. -/
def queryRaw (q : Query)
    (client : QueryOptions → Except RaisedError (QueryData × List FieldPacket)) :
    Outcome ResultSet :=
  match performIo (client (queryRawOptions q)) with
  | .err e => .err e
  | .raised e => .raised e
  | .ok (data, fields) =>
    let columnNames := fields.map (fun field => field.name)
    let rows := match data with
      | .rowsData rs => rs
      | .headerData _ => []
    let lastInsertId := match data with
      | .headerData h => some (toString h.insertId)
      | .rowsData _ => none
    match mapColumnTypes fields with
    | .error t => .err (.unsupported ⟨"UnsupportedNativeDataType", t⟩)
    | .ok columnTypes => .ok ⟨columnNames, columnTypes, rows, lastInsertId⟩

/-- executeRaw from mysql.ts: no array mode, no typeCast; extracts only the
affected-row count. -/
def executeRaw (q : Query)
    (client : QueryOptions → Except RaisedError (ResultSetHeader × List FieldPacket)) :
    Outcome Nat :=
  match performIo (client (executeRawOptions q)) with
  | .err e => .err e
  | .raised e => .raised e
  | .ok (data, _) => .ok data.affectedRows

/-! ### Transaction connection release (mysql.ts, MySqlTransaction) -/

/-- A pooled connection, instrumented with the number of release calls
observed on it. -/
structure PoolConnection where
  releaseCount : Nat
deriving DecidableEq, Repr

/-- `this.client.release()`: one release call. -/
def release (c : PoolConnection) : PoolConnection :=
  ⟨c.releaseCount + 1⟩

/-- MySqlTransaction.commit: releases the borrowed connection and returns
`ok(undefined)`. -/
def commit (c : PoolConnection) : PoolConnection × Outcome Unit :=
  (release c, .ok ())

/-- MySqlTransaction.rollback: releases the borrowed connection and returns
`ok(undefined)`. -/
def rollback (c : PoolConnection) : PoolConnection × Outcome Unit :=
  (release c, .ok ())

/-- Classification succeeds, i.e. fieldToColumnType does not throw. -/
def classifySucceeds (f : FieldPacket) : Bool :=
  match fieldToColumnType f with
  | .ok _ => true
  | .error _ => false

/-! ### Helper lemmas -/

theorem lookup_eq_none_of_forall {β : Type} (c : Nat) (l : List (Nat × β))
    (h : ∀ p ∈ l, p.1 ≠ c) : l.lookup c = none := by
  induction l with
  | nil => rfl
  | cons p ps ih =>
    simp only [List.lookup]
    cases hb : c == p.1 with
    | false => exact ih (fun q hq => h q (List.mem_cons_of_mem _ hq))
    | true => exact absurd (beq_iff_eq.mp hb).symm (h p (List.mem_cons_self _ _))

theorem mySqlCodes_eq_none (c : Nat) (h : c ∉ supportedCodes) : MySqlCodes c = none := by
  apply lookup_eq_none_of_forall
  intro p hp hc
  apply h
  have hm : p.1 ∈ MySqlCodesList.map Prod.fst := List.mem_map_of_mem Prod.fst hp
  rw [← hc]
  exact hm

theorem mapColumnTypes_error_of_mem (fields : List FieldPacket)
    (h : ∃ f ∈ fields, ∃ t, fieldToColumnType f = Except.error t) :
    ∃ t, mapColumnTypes fields = Except.error t ∧
      ∃ f ∈ fields, fieldToColumnType f = Except.error t := by
  induction fields with
  | nil => simp at h
  | cons f fs ih =>
    cases hf : fieldToColumnType f with
    | error t =>
      exact ⟨t, by simp [mapColumnTypes, hf], f, by simp, hf⟩
    | ok c =>
      have h' : ∃ g ∈ fs, ∃ t, fieldToColumnType g = Except.error t := by
        obtain ⟨g, hg, t, hgt⟩ := h
        rcases List.mem_cons.mp hg with rfl | hg'
        · rw [hf] at hgt; cases hgt
        · exact ⟨g, hg', t, hgt⟩
      obtain ⟨t, hmap, g, hg, hgt⟩ := ih h'
      exact ⟨t, by simp [mapColumnTypes, hf, hmap], g, by simp [hg], hgt⟩

theorem toDigitsCore_ne_nil (b fuel n : Nat) (l : List Char) (hl : l ≠ []) :
    Nat.toDigitsCore b fuel n l ≠ [] := by
  induction fuel generalizing n l with
  | zero => simpa [Nat.toDigitsCore] using hl
  | succ fuel ih =>
    simp only [Nat.toDigitsCore]
    split
    · simp
    · exact ih _ _ (by simp)

theorem repr_ne_empty (n : Nat) : Nat.repr n ≠ "" := by
  have h : Nat.toDigits 10 n ≠ [] := by
    simp only [Nat.toDigits, Nat.toDigitsCore]
    split
    · simp
    · exact toDigitsCore_ne_nil _ _ _ _ (by simp)
  simp only [Nat.repr, List.asString]
  intro hc
  exact h (congrArg String.data hc)

theorem digitChar_isDigit (n : Nat) (h : n < 10) : (Nat.digitChar n).isDigit = true := by
  interval_cases n <;> decide

theorem toDigitsCore_all_digits (fuel n : Nat) (l : List Char)
    (hl : ∀ c ∈ l, c.isDigit = true) :
    ∀ c ∈ Nat.toDigitsCore 10 fuel n l, c.isDigit = true := by
  induction fuel generalizing n l with
  | zero => simpa [Nat.toDigitsCore] using hl
  | succ fuel ih =>
    simp only [Nat.toDigitsCore]
    have hd : (Nat.digitChar (n % 10)).isDigit = true :=
      digitChar_isDigit _ (Nat.mod_lt _ (by norm_num))
    split
    · intro c hc
      rcases List.mem_cons.mp hc with rfl | hc'
      · exact hd
      · exact hl c hc'
    · apply ih
      intro c hc
      rcases List.mem_cons.mp hc with rfl | hc'
      · exact hd
      · exact hl c hc'

theorem repr_all_digits (n : Nat) : (Nat.repr n).data.all Char.isDigit = true := by
  rw [List.all_eq_true]
  intro c hc
  have hmem : c ∈ Nat.toDigits 10 n := hc
  revert hmem
  simp only [Nat.toDigits, Nat.toDigitsCore]
  have hd : (Nat.digitChar (n % 10)).isDigit = true :=
    digitChar_isDigit _ (Nat.mod_lt _ (by norm_num))
  split
  · intro h
    rcases List.mem_cons.mp h with rfl | h'
    · exact hd
    · simp at h'
  · intro h
    refine toDigitsCore_all_digits _ _ _ ?_ c h
    intro x hx
    rcases List.mem_cons.mp hx with rfl | hx'
    · exact hd
    · simp at hx'

/-! ### Claims -/

/-- C1 counterexample: SET (0xf8) is in the supported code table of §6, yet
classification fails on it (with UnsupportedNativeDataType carrying "SET",
not success), so classification is not total over the 28-entry name table. -/
theorem c1_classification_totality_counterexample :
    fieldToColumnType ⟨"s", "t", 0xf8, 0, 0, 0⟩ = Except.error "SET" ∧
    (0xf8 : Nat) ∈ supportedCodes :=
  ⟨rfl, by decide⟩

/-- C1 amended: classification succeeds for every descriptor whose code is in
the name table except SET and GEOMETRY, provided a BIT column has declared
length at least 1; for a code outside the table it fails with carried name
"Unknown" when the ENUM flag bit is clear, and classifies as Enum when the
ENUM flag bit is set. -/
theorem c1_classification_totality_amended (f : FieldPacket) :
    (f.columnType ∈ supportedCodes → f.columnType ≠ MySqlTypes.SET →
      f.columnType ≠ MySqlTypes.GEOMETRY →
      (f.columnType = MySqlTypes.BIT → 1 ≤ f.columnLength) →
      classifySucceeds f = true) ∧
    (f.columnType ∉ supportedCodes → hasFlag f.flags MySqlFlags.ENUM = 0 →
      fieldToColumnType f = Except.error "Unknown") ∧
    (f.columnType ∉ supportedCodes → hasFlag f.flags MySqlFlags.ENUM ≠ 0 →
      fieldToColumnType f = Except.ok ColumnType.Enum) := by
  refine ⟨?_, ?_, ?_⟩
  · intro hmem hset hgeo hbit
    simp [supportedCodes, MySqlCodesList] at hmem
    rcases hmem with h|h|h|h|h|h|h|h|h|h|h|h|h|h|h|h|h|h|h|h|h|h|h|h|h|h|h|h <;>
      first
      | exact absurd h hset
      | exact absurd h hgeo
      | (have hlen := hbit h
         by_cases h1 : f.columnLength = 1
         · simp [classifySucceeds, fieldToColumnType, isReal, isFloat, isDouble, isInt32,
             isInt64, isDateTime, isTime, isDate, isText, isBytes, isBool, hasFlag, h, h1]
         · have h2 : 1 < f.columnLength := by omega
           have h0 : f.columnLength ≠ 0 := by omega
           simp [classifySucceeds, fieldToColumnType, isReal, isFloat, isDouble, isInt32,
             isInt64, isDateTime, isTime, isDate, isText, isBytes, hasFlag, h, h0, h2])
      | (by_cases hu : f.flags &&& 32 = 0 <;>
         by_cases he : f.flags &&& 256 = 0 <;>
         by_cases hc : f.characterSet = 63 <;>
         simp [classifySucceeds, fieldToColumnType, isReal, isFloat, isDouble, isInt32,
           isInt64, isDateTime, isTime, isDate, isText, isBytes, isBool, isJson, isEnum,
           isNull, hasFlag, h, hu, he, hc])
  · intro hmem hfl
    have hcodes := mySqlCodes_eq_none _ hmem
    have hfl' : f.flags &&& 256 = 0 := by simpa [hasFlag] using hfl
    simp [supportedCodes, MySqlCodesList] at hmem
    simp [fieldToColumnType, isReal, isFloat, isDouble, isInt32, isInt64, isDateTime,
      isTime, isDate, isText, isBytes, isBool, isJson, isEnum, isNull, hasFlag,
      unsupportedTypeName, hcodes, hfl', hmem]
  · intro hmem hfl
    have hfl' : f.flags &&& 256 ≠ 0 := by simpa [hasFlag] using hfl
    simp [supportedCodes, MySqlCodesList] at hmem
    simp [fieldToColumnType, isReal, isFloat, isDouble, isInt32, isInt64, isDateTime,
      isTime, isDate, isText, isBytes, isBool, isJson, isEnum, isNull, hasFlag,
      hfl', hmem]

/-- C1 amended witness: VARCHAR (0x0f) classifies; code 0x42 with no flags
fails with "Unknown"; code 0x42 with the ENUM flag bit classifies as Enum. -/
theorem c1_classification_totality_amended_witness :
    classifySucceeds ⟨"a", "t", 0x0f, 0, 0, 0⟩ = true ∧
    fieldToColumnType ⟨"b", "t", 0x42, 0, 0, 0⟩ = Except.error "Unknown" ∧
    fieldToColumnType ⟨"c", "t", 0x42, 256, 0, 0⟩ = Except.ok ColumnType.Enum :=
  ⟨(c1_classification_totality_amended _).1 (by decide) (by decide) (by decide) (by decide),
   (c1_classification_totality_amended _).2.1 (by decide) (by decide),
   (c1_classification_totality_amended _).2.2 (by decide) (by decide)⟩

/-- C2 counterexample: a driver failure with code 1045, message
"Access denied", state "28000" is translated, but the returned error value's
kind tag is the literal "Mysql", not "DatabaseError" as claimed. -/
theorem c2_error_translation_counterexample :
    queryRaw ⟨"SELECT 1", []⟩ (fun _ => Except.error ⟨some 1045, "Access denied", "28000"⟩) =
      Outcome.err (.mysqlErr ⟨"Mysql", 1045, "Access denied", "28000"⟩) ∧
    "Mysql" ≠ "DatabaseError" :=
  ⟨rfl, by decide⟩

/-- C2 amended: a failure raised during queryRaw or executeRaw that carries a
non-zero status code is returned as the error value
`{ kind: "Mysql", code, message, state }`; a failure with no code (or code 0,
which the truthiness test also rejects) is re-raised unchanged, never masked
as a generic error result. -/
theorem c2_error_translation_amended (q : Query) (e : RaisedError) :
    (∀ c : Nat, e.code = some c → c ≠ 0 →
      queryRaw q (fun _ => Except.error e) =
        Outcome.err (.mysqlErr ⟨"Mysql", c, e.message, e.state⟩) ∧
      executeRaw q (fun _ => Except.error e) =
        Outcome.err (.mysqlErr ⟨"Mysql", c, e.message, e.state⟩)) ∧
    (e.code = none →
      queryRaw q (fun _ => Except.error e) = Outcome.raised e ∧
      executeRaw q (fun _ => Except.error e) = Outcome.raised e) ∧
    (e.code = some 0 →
      queryRaw q (fun _ => Except.error e) = Outcome.raised e ∧
      executeRaw q (fun _ => Except.error e) = Outcome.raised e) := by
  refine ⟨?_, ?_, ?_⟩
  · intro c hc hne
    constructor <;> simp [queryRaw, executeRaw, performIo, hc, hne]
  · intro hc
    constructor <;> simp [queryRaw, executeRaw, performIo, hc]
  · intro hc
    constructor <;> simp [queryRaw, executeRaw, performIo, hc]

/-- C2 amended witness: the code-1045 failure translates, and a shapeless
failure is re-raised unchanged. -/
theorem c2_error_translation_amended_witness :
    queryRaw ⟨"SELECT 1", []⟩ (fun _ => Except.error ⟨some 1045, "Access denied", "28000"⟩) =
      Outcome.err (.mysqlErr ⟨"Mysql", 1045, "Access denied", "28000"⟩) ∧
    queryRaw ⟨"SELECT 1", []⟩ (fun _ => Except.error ⟨none, "boom", ""⟩) =
      Outcome.raised ⟨none, "boom", ""⟩ :=
  ⟨((c2_error_translation_amended ⟨"SELECT 1", []⟩
      ⟨some 1045, "Access denied", "28000"⟩).1 1045 rfl (by decide)).1,
   ((c2_error_translation_amended ⟨"SELECT 1", []⟩ ⟨none, "boom", ""⟩).2.1 rfl).1⟩

/-- C3 counterexample: a BIT column with declared length 0 does not classify
as Bytes; the truthiness guard on the length makes classification fail with
UnsupportedNativeDataType carrying "BIT". -/
theorem c3_bit_boundaries_counterexample :
    fieldToColumnType ⟨"b", "t", 0x10, 0, 0, 0⟩ = Except.error "BIT" ∧
    fieldToColumnType ⟨"b", "t", 0x10, 0, 0, 0⟩ ≠ Except.ok ColumnType.Bytes := by
  refine ⟨rfl, ?_⟩
  intro hco
  rw [show fieldToColumnType ⟨"b", "t", 0x10, 0, 0, 0⟩ = Except.error "BIT" from rfl] at hco
  cases hco

/-- C3 amended: BIT with declared length 1 classifies as Boolean, BIT with
declared length at least 2 (in particular 2) as Bytes, and BIT with declared
length 0 fails with UnsupportedNativeDataType carrying "BIT" (when the ENUM
flag bit is clear). -/
theorem c3_bit_boundaries_amended (f : FieldPacket) (h : f.columnType = MySqlTypes.BIT) :
    (f.columnLength = 1 → fieldToColumnType f = Except.ok ColumnType.Boolean) ∧
    (2 ≤ f.columnLength → fieldToColumnType f = Except.ok ColumnType.Bytes) ∧
    (f.columnLength = 0 → hasFlag f.flags MySqlFlags.ENUM = 0 →
      fieldToColumnType f = Except.error "BIT") := by
  refine ⟨?_, ?_, ?_⟩ <;> intro hl
  · simp [fieldToColumnType, isReal, isFloat, isDouble, isInt32, isInt64, isDateTime,
      isTime, isDate, isText, isBytes, isBool, hasFlag, h, hl]
  · have h0 : f.columnLength ≠ 0 := by omega
    have h1 : 1 < f.columnLength := by omega
    simp [fieldToColumnType, isReal, isFloat, isDouble, isInt32, isInt64, isDateTime,
      isTime, isDate, isText, isBytes, hasFlag, h, h0, h1]
  · intro hfl
    have hfl' : f.flags &&& 256 = 0 := by simpa [hasFlag] using hfl
    simp [fieldToColumnType, isReal, isFloat, isDouble, isInt32, isInt64, isDateTime,
      isTime, isDate, isText, isBytes, isBool, isJson, isEnum, isNull, hasFlag,
      unsupportedTypeName, MySqlCodes, MySqlCodesList, List.lookup, h, hl, hfl']

/-- C3 amended witness: BIT lengths 1, 2 and 0 at concrete descriptors. -/
theorem c3_bit_boundaries_amended_witness :
    fieldToColumnType ⟨"b1", "t", 0x10, 0, 0, 1⟩ = Except.ok ColumnType.Boolean ∧
    fieldToColumnType ⟨"b2", "t", 0x10, 0, 0, 2⟩ = Except.ok ColumnType.Bytes ∧
    fieldToColumnType ⟨"b0", "t", 0x10, 0, 0, 0⟩ = Except.error "BIT" :=
  ⟨(c3_bit_boundaries_amended _ rfl).1 rfl,
   (c3_bit_boundaries_amended _ rfl).2.1 (by decide),
   (c3_bit_boundaries_amended _ rfl).2.2 rfl (by decide)⟩

/-- C4 counterexample: executeRaw does not install the field-decoding policy
(its client options carry no typeCast), while queryRaw does, so the claim
that both operations install it is false. -/
theorem c4_decoding_policy_counterexample :
    (executeRawOptions ⟨"INSERT INTO t (a) VALUES (1)", []⟩).typeCast = none ∧
    (queryRawOptions ⟨"SELECT 1", []⟩).typeCast ≠ none :=
  ⟨rfl, by simp [queryRawOptions]⟩

/-- C4 amended: queryRaw installs the typeCast policy together with array
mode, executeRaw delegates with the client's default decoding (no policy),
and the policy returns the field's original text exactly for the four type
names TIMESTAMP, DATETIME, DATE and LONGLONG, delegating to the default
decoder for every other type name. -/
theorem c4_decoding_policy_amended (q : Query) (f : CastField) (next : Unit → CastValue) :
    (queryRawOptions q).typeCast = some typeCast ∧
    (queryRawOptions q).rowsAsArray = true ∧
    (executeRawOptions q).typeCast = none ∧
    typeCast f next =
      (if f.type = "TIMESTAMP" ∨ f.type = "DATETIME" ∨ f.type = "DATE" ∨ f.type = "LONGLONG"
       then CastValue.text f.stringRep else next ()) := by
  refine ⟨rfl, rfl, rfl, ?_⟩
  by_cases h1 : f.type = "TIMESTAMP" <;>
    by_cases h2 : f.type = "DATETIME" <;>
    by_cases h3 : f.type = "DATE" <;>
    by_cases h4 : f.type = "LONGLONG" <;>
    simp [typeCast, h1, h2, h3, h4]

/-- C5: if any returned field is unclassifiable, queryRaw returns the
`kind: "UnsupportedNativeDataType"` error carrying the type name of a failing
column (the first one), and never a (partial) result envelope. -/
theorem c5_no_partial_results (q : Query) (data : QueryData) (fields : List FieldPacket)
    (h : ∃ f ∈ fields, ∃ t, fieldToColumnType f = Except.error t) :
    ∃ t, queryRaw q (fun _ => Except.ok (data, fields)) =
        Outcome.err (.unsupported ⟨"UnsupportedNativeDataType", t⟩) ∧
      ∃ f ∈ fields, fieldToColumnType f = Except.error t := by
  obtain ⟨t, hmap, hf⟩ := mapColumnTypes_error_of_mem fields h
  exact ⟨t, by simp [queryRaw, performIo, hmap], hf⟩

/-- C5 witness: a two-column result where the second column is GEOMETRY
(unclassifiable) fails the whole call. -/
theorem c5_no_partial_results_witness :
    ∃ t, queryRaw ⟨"SELECT a, g FROM t", []⟩
        (fun _ => Except.ok (QueryData.rowsData [],
          [⟨"a", "t", 0x03, 0, 0, 0⟩, ⟨"g", "t", 0xff, 0, 0, 0⟩])) =
      Outcome.err (.unsupported ⟨"UnsupportedNativeDataType", t⟩) ∧
      ∃ f ∈ [(⟨"a", "t", 0x03, 0, 0, 0⟩ : FieldPacket), ⟨"g", "t", 0xff, 0, 0, 0⟩],
        fieldToColumnType f = Except.error t :=
  c5_no_partial_results _ _ _ ⟨⟨"g", "t", 0xff, 0, 0, 0⟩, by simp, "GEOMETRY", rfl⟩

/-- C6: TINY, SHORT and YEAR classify as Int32 whatever the flags; LONG and
INT24 classify as Int32 when the UNSIGNED bit (32) is clear and Int64 when it
is set; LONGLONG classifies as Int64 whatever the flags. -/
theorem c6_integer_classification (f : FieldPacket) :
    ((f.columnType = MySqlTypes.TINY ∨ f.columnType = MySqlTypes.SHORT ∨
        f.columnType = MySqlTypes.YEAR) →
      fieldToColumnType f = Except.ok ColumnType.Int32) ∧
    ((f.columnType = MySqlTypes.LONG ∨ f.columnType = MySqlTypes.INT24) →
      fieldToColumnType f =
        (if hasFlag f.flags MySqlFlags.UNSIGNED = 0 then Except.ok ColumnType.Int32
         else Except.ok ColumnType.Int64)) ∧
    (f.columnType = MySqlTypes.LONGLONG → fieldToColumnType f = Except.ok ColumnType.Int64) := by
  refine ⟨?_, ?_, ?_⟩
  · rintro (h | h | h) <;>
      simp [fieldToColumnType, isReal, isFloat, isDouble, isInt32, h]
  · rintro (h | h) <;>
      by_cases hu : f.flags &&& 32 = 0 <;>
      simp [fieldToColumnType, isReal, isFloat, isDouble, isInt32, isInt64, hasFlag, h, hu]
  · intro h
    simp [fieldToColumnType, isReal, isFloat, isDouble, isInt32, isInt64, h]

/-- C6 witness: TINY, unsigned LONG, and LONGLONG at concrete descriptors. -/
theorem c6_integer_classification_witness :
    fieldToColumnType ⟨"a", "t", 0x01, 2048, 0, 0⟩ = Except.ok ColumnType.Int32 ∧
    fieldToColumnType ⟨"b", "t", 0x03, 32, 0, 0⟩ = Except.ok ColumnType.Int64 ∧
    fieldToColumnType ⟨"c", "t", 0x08, 0, 0, 0⟩ = Except.ok ColumnType.Int64 := by
  refine ⟨(c6_integer_classification _).1 (Or.inl rfl), ?_,
    (c6_integer_classification _).2.2 rfl⟩
  have h := (c6_integer_classification ⟨"b", "t", 0x03, 32, 0, 0⟩).2.1 (Or.inl rfl)
  rwa [if_neg (by decide)] at h

/-- C7: the four BLOB-family codes classify as Bytes when characterSet is the
binary sentinel 63 and as Text for any other characterSet; VARCHAR,
VAR_STRING and STRING classify as Text whatever the characterSet. -/
theorem c7_text_bytes_classification (f : FieldPacket) :
    ((f.columnType = MySqlTypes.TINY_BLOB ∨ f.columnType = MySqlTypes.MEDIUM_BLOB ∨
        f.columnType = MySqlTypes.LONG_BLOB ∨ f.columnType = MySqlTypes.BLOB) →
      fieldToColumnType f =
        (if f.characterSet = 63 then Except.ok ColumnType.Bytes
         else Except.ok ColumnType.Text)) ∧
    ((f.columnType = MySqlTypes.VARCHAR ∨ f.columnType = MySqlTypes.VAR_STRING ∨
        f.columnType = MySqlTypes.STRING) →
      fieldToColumnType f = Except.ok ColumnType.Text) := by
  constructor
  · rintro (h | h | h | h) <;>
      by_cases hc : f.characterSet = 63 <;>
      simp [fieldToColumnType, isReal, isFloat, isDouble, isInt32, isInt64, isDateTime,
        isTime, isDate, isText, isBytes, h, hc]
  · rintro (h | h | h) <;>
      simp [fieldToColumnType, isReal, isFloat, isDouble, isInt32, isInt64, isDateTime,
        isTime, isDate, isText, h]

/-- C7 witness: BLOB with charset 63, BLOB with charset 5, VARCHAR with
charset 63. -/
theorem c7_text_bytes_classification_witness :
    fieldToColumnType ⟨"a", "t", 0xfc, 0, 63, 0⟩ = Except.ok ColumnType.Bytes ∧
    fieldToColumnType ⟨"b", "t", 0xfc, 0, 5, 0⟩ = Except.ok ColumnType.Text ∧
    fieldToColumnType ⟨"c", "t", 0x0f, 0, 63, 0⟩ = Except.ok ColumnType.Text := by
  refine ⟨?_, ?_, (c7_text_bytes_classification _).2 (Or.inl rfl)⟩
  · have h := (c7_text_bytes_classification ⟨"a", "t", 0xfc, 0, 63, 0⟩).1
      (Or.inr (Or.inr (Or.inr rfl)))
    rwa [if_pos (by decide)] at h
  · have h := (c7_text_bytes_classification ⟨"b", "t", 0xfc, 0, 5, 0⟩).1
      (Or.inr (Or.inr (Or.inr rfl)))
    rwa [if_neg (by decide)] at h

/-- C8: on a successful queryRaw, lastInsertId is present exactly when the
client's result data is a header exposing insertId, in which case it is the
decimal string representation of that identifier — a non-empty string of
digits. -/
theorem c8_last_insert_id (q : Query) (data : QueryData) (fields : List FieldPacket)
    (rs : ResultSet)
    (h : queryRaw q (fun _ => Except.ok (data, fields)) = Outcome.ok rs) :
    (rs.lastInsertId ≠ none ↔ ∃ hd, data = QueryData.headerData hd) ∧
    (∀ hd, data = QueryData.headerData hd →
      rs.lastInsertId = some (toString hd.insertId) ∧
      toString hd.insertId ≠ "" ∧
      (toString hd.insertId).data.all Char.isDigit = true) := by
  simp only [queryRaw, performIo] at h
  cases hm : mapColumnTypes fields with
  | error t => rw [hm] at h; cases h
  | ok cts =>
    rw [hm] at h
    cases h
    cases data with
    | rowsData rows => simp
    | headerData hd =>
      refine ⟨by simp, ?_⟩
      intro hd' hh
      cases hh
      exact ⟨rfl, repr_ne_empty _, repr_all_digits _⟩

/-- C8 witness: an insert returning a header with insertId 42 yields
lastInsertId "42", non-empty and numeric. -/
theorem c8_last_insert_id_witness :
    (⟨[], [], [], some (toString (42 : Nat))⟩ : ResultSet).lastInsertId =
      some (toString (42 : Nat)) ∧
    toString (42 : Nat) ≠ "" ∧
    (toString (42 : Nat)).data.all Char.isDigit = true :=
  (c8_last_insert_id ⟨"INSERT INTO t (a) VALUES (1)", []⟩
    (QueryData.headerData ⟨1, 42⟩) [] ⟨[], [], [], some (toString (42 : Nat))⟩ rfl).2
    ⟨1, 42⟩ rfl

/-- C9: commit and rollback each invoke release on the borrowed connection
exactly once (the observed release count rises by exactly one) and return a
successful void result. -/
theorem c9_release_exactly_once (c : PoolConnection) :
    (commit c).1.releaseCount = c.releaseCount + 1 ∧ (commit c).2 = Outcome.ok () ∧
    (rollback c).1.releaseCount = c.releaseCount + 1 ∧ (rollback c).2 = Outcome.ok () :=
  ⟨rfl, rfl, rfl, rfl⟩

/-- C10: classification reads only columnType, flags, characterSet and
columnLength: two descriptors agreeing on those four attributes get the same
outcome (same normalized type, or failure with the same carried name),
whatever their name or table. -/
theorem c10_classification_depends_only_on_four_attrs (f g : FieldPacket)
    (h1 : f.columnType = g.columnType) (h2 : f.flags = g.flags)
    (h3 : f.characterSet = g.characterSet) (h4 : f.columnLength = g.columnLength) :
    fieldToColumnType f = fieldToColumnType g := by
  obtain ⟨n1, t1, ct1, fl1, cs1, len1⟩ := f
  obtain ⟨n2, t2, ct2, fl2, cs2, len2⟩ := g
  simp only at h1 h2 h3 h4
  subst h1 h2 h3 h4
  rfl

/-- C10 witness: two descriptors differing only in name and table classify
identically. -/
theorem c10_classification_depends_only_on_four_attrs_witness :
    fieldToColumnType ⟨"a", "t1", 0x03, 0, 8, 11⟩ =
      fieldToColumnType ⟨"b", "t2", 0x03, 0, 8, 11⟩ :=
  c10_classification_depends_only_on_four_attrs _ _ rfl rfl rfl rfl

end PrismaMySql
